import Mathlib

/-!
Shallow embedding of the TriboiAI license system.

The repository has two variants of the license logic:

* a client-side module (IIFE in `server.js`, second part): code validation by
  anagram check (`validateCodePattern`), a `localStorage`-backed single-record
  store, the status evaluator `checkStatus`, activation, question-counter
  increment, and the deferred-block interception around the send button
  (`interceptSendButton` with the module-level `licenseJustExpired` flag);

* a server-side module (`database.js` plus the license-management Express app):
  an in-memory `Map` of license records keyed by code, with
  `checkLicenseStatus`, `activateLicense`, `incrementQuestionUsage` and the
  administrative `createLicense`.

JS strings are modelled as `List Char`; timestamps (`Date.now()`, ISO strings
compared through `getTime()`) as `Int` milliseconds; `Math.floor` of a real
division as `Int.fdiv`.  `localStorage` plus `JSON.parse` is modelled by the
`RawStore` type whose `corrupt` constructor stands for a stored blob on which
`JSON.parse` throws (the catch in `getLicense` turns it into `null`).
-/

namespace Triboi

namespace Client

/-- ASCII case model of JavaScript `String.prototype.toUpperCase` (license
codes only use ASCII characters). -/
def jsUpper (c : Char) : Char :=
  if 'a' ≤ c ∧ c ≤ 'z' then Char.ofNat (c.toNat - 32) else c

/-- Characters matched by the `\s` class of the `replace(/\s/g, '')` step
(ASCII/Latin-1 portion). -/
def jsIsSpace (c : Char) : Bool :=
  c = ' ' || c = '\t' || c = '\n' || c = '\r' ||
  c = '\x0b' || c = '\x0c' || c = ' '

/-- The normalisation prelude of `validateCodePattern`:
`code.trim().toUpperCase().replace(/\s/g, '')`.  The global `\s` strip
subsumes the initial `trim`, and upper-casing maps whitespace to itself,
so the composite is: upper-case every character, then drop all whitespace. -/
def cleanCode (s : List Char) : List Char :=
  (s.map jsUpper).filter (fun c => !jsIsSpace c)

/-- One entry of `LICENSE_CONFIG` (the field named `prefix` in the source is
called `pfx` here because `prefix` is reserved in Lean). -/
structure TierCfg where
  pfx : Char
  chars : List Char
  maxQuestions : Nat
  maxDays : Nat
  price : Nat
  name : String
deriving DecidableEq, Repr

/-- `LICENSE_CONFIG.BASIC`. -/
def LICENSE_CONFIG_BASIC : TierCfg :=
  { pfx := 'B', chars := ['1', '9', '7', '4', 'I', 'U', 'L'],
    maxQuestions := 10, maxDays := 30, price := 20, name := "Basic" }

/-- `LICENSE_CONFIG.PREMIUM`. -/
def LICENSE_CONFIG_PREMIUM : TierCfg :=
  { pfx := 'P', chars := ['2', '0', '8', '5', 'J', 'V', 'M'],
    maxQuestions := 100, maxDays := 365, price := 100, name := "Premium" }

/-- `[...chars].sort()` — JavaScript default sort on single-character strings
orders by code unit, i.e. by `≤` on `Char` (a structurally-recursive sort is
used so the model evaluates by kernel reduction; only the sorted result is
observable). -/
def sortChars (l : List Char) : List Char :=
  List.insertionSort (· ≤ ·) l

/-- The object returned by a successful `validateCodePattern`:
`{ type, code, ...cfg }`. -/
structure CodePack where
  type : String
  code : List Char
  pfx : Char
  chars : List Char
  maxQuestions : Nat
  maxDays : Nat
  price : Nat
  name : String
deriving DecidableEq, Repr

/-- `validateCodePattern(code)` from the client module: normalise, require
total length 8, resolve the tier by the first character (`B`/`P`), and accept
exactly when the sorted 7-character body equals the sorted tier alphabet. -/
def validateCodePattern (code : List Char) : Option CodePack :=
  let clean := cleanCode code
  if clean.length = 8 then
    match clean with
    | [] => none
    | p :: body =>
      let cfg? : Option TierCfg :=
        if p = 'B' then some LICENSE_CONFIG_BASIC
        else if p = 'P' then some LICENSE_CONFIG_PREMIUM
        else none
      match cfg? with
      | none => none
      | some cfg =>
        if body.length = 7 then
          if sortChars body = sortChars cfg.chars then
            some { type := if p = 'B' then "BASIC" else "PREMIUM",
                   code := clean, pfx := cfg.pfx, chars := cfg.chars,
                   maxQuestions := cfg.maxQuestions, maxDays := cfg.maxDays,
                   price := cfg.price, name := cfg.name }
          else none
        else none
  else none

/-- The persisted client license record. -/
structure License where
  code : List Char
  type : String
  maxQuestions : Nat
  maxDays : Nat
  activationDate : Int
  questionsUsed : Nat
deriving DecidableEq, Repr

/-- The `localStorage` slot under `STORAGE_KEY`: either empty, or holding a
blob `JSON.parse` rejects, or holding a well-formed record. -/
inductive RawStore where
  | absent
  | corrupt
  | stored (license : License)
deriving DecidableEq, Repr

/-- `getLicense()`: returns `null` both when the slot is empty and when
`JSON.parse` throws (the `try`/`catch`). -/
def getLicense : RawStore → Option License
  | .absent => none
  | .corrupt => none
  | .stored license => some license

/-- Result shape of `checkStatus()` (the echoed `license` field is omitted;
it is the record the caller already holds). -/
inductive Status where
  | invalid (reason : String)
  | valid (questionsRemaining : Nat) (daysRemaining : Int)
deriving DecidableEq, Repr

/-- `checkStatus()`: no record ⇒ `no_license`; exhausted question budget ⇒
`questions_exceeded`; then `daysRemaining = max(0, maxDays - floor(elapsed/day))`
and `daysRemaining <= 0` ⇒ `expired`; otherwise valid with both remainders. -/
def checkStatus (store : RawStore) (now : Int) : Status :=
  match getLicense store with
  | none => .invalid "no_license"
  | some license =>
    if license.questionsUsed ≥ license.maxQuestions then
      .invalid "questions_exceeded"
    else
      let elapsedDays : Int := Int.fdiv (now - license.activationDate) 86400000
      let daysRemaining : Int := max 0 ((license.maxDays : Int) - elapsedDays)
      if daysRemaining ≤ 0 then .invalid "expired"
      else .valid (license.maxQuestions - license.questionsUsed) daysRemaining

/-- `incrementQuestions()`: no-op when `getLicense()` is `null`, otherwise
bump `questionsUsed` and save. -/
def incrementQuestions (store : RawStore) : RawStore :=
  match getLicense store with
  | none => store
  | some license => .stored { license with questionsUsed := license.questionsUsed + 1 }

/-- `window.triboiAdmin.addQuestions(n)`:
`questionsUsed = Math.max(0, questionsUsed - n)` (truncated `Nat` subtraction
models the clamp at 0). -/
def addQuestions (n : Nat) (store : RawStore) : RawStore :=
  match getLicense store with
  | none => store
  | some license => .stored { license with questionsUsed := license.questionsUsed - n }

/-- Result of `activateLicense(code)`. -/
inductive ActivateResult where
  | success (license : License) (message : String)
  | failure (error : String)
deriving DecidableEq, Repr

/-- The process-lifetime client state: the storage slot plus the module-level
`licenseJustExpired` flag. -/
structure ClientState where
  store : RawStore
  licenseJustExpired : Bool
deriving DecidableEq, Repr

/-- `activateLicense(code)`: validate; on failure return `Cod invalid` without
touching anything; on success build a fresh record (`questionsUsed = 0`,
`activationDate = Date.now()`), save it and clear `licenseJustExpired`. -/
def activateLicense (code : List Char) (now : Int) (st : ClientState) :
    ActivateResult × ClientState :=
  match validateCodePattern code with
  | none => (.failure "Cod invalid", st)
  | some pack =>
    let license : License :=
      { code := pack.code, type := pack.type,
        maxQuestions := pack.maxQuestions, maxDays := pack.maxDays,
        activationDate := now, questionsUsed := 0 }
    (.success license ("Licență " ++ pack.name ++ " activată!"),
     { store := .stored license, licenseJustExpired := false })

/-- Whether the admission gate lets the click through. -/
inductive Decision where
  | allow
  | deny (reason : String)
deriving DecidableEq, Repr

/-- The deferred tail of the send-button handler (the `setTimeout` body):
increment the counter, re-evaluate, and arm `licenseJustExpired` when the
fresh status is invalid with reason `questions_exceeded` or `expired`. -/
def afterDispatch (now : Int) (st : ClientState) : Decision × ClientState :=
  let store2 := incrementQuestions st.store
  let flag2 :=
    match checkStatus store2 now with
    | .invalid r2 =>
      if r2 = "questions_exceeded" ∨ r2 = "expired" then true
      else st.licenseJustExpired
    | .valid _ _ => st.licenseJustExpired
  (.allow, { store := store2, licenseJustExpired := flag2 })

/-- One click on the send button (`interceptSendButton` handler, with the
deferred consumption sequenced after the dispatch): deny hard on `no_license`;
deny and clear the flag when `licenseJustExpired` is set and the status is
invalid; otherwise let the action through and run the deferred consumption. -/
def clickStep (now : Int) (st : ClientState) : Decision × ClientState :=
  match checkStatus st.store now with
  | .invalid r =>
    if r = "no_license" then (.deny r, st)
    else if st.licenseJustExpired then
      (.deny r, { st with licenseJustExpired := false })
    else afterDispatch now st
  | .valid _ _ => afterDispatch now st

/-- `n` consecutive clicks (each one full handler cycle, deferred part
included). -/
def clickN (n : Nat) (now : Int) (st : ClientState) : ClientState :=
  match n with
  | 0 => st
  | n + 1 => clickN n now (clickStep now st).2

end Client

namespace Server

/-- One record of the in-memory license `Map` of `database.js`.  ISO-8601
timestamp strings are modelled by their epoch-millisecond values (the code
only ever compares them through `new Date(s).getTime()`); `null` fields by
`Option`. -/
structure ServerLicense where
  code : String
  type : String
  questions_total : Int
  questions_used : Int
  status : String
  created_at : Int
  activated_at : Option Int
  last_used_at : Option Int
  expires_at : Option Int
deriving DecidableEq, Repr

/-- The `licenses` `Map`, as an association list keyed by code. -/
abbrev DB := List (String × ServerLicense)

/-- `licenses.get(code)`. -/
def dbGet (db : DB) (code : String) : Option ServerLicense :=
  (db.find? (fun p => p.1 == code)).map (fun p => p.2)

/-- `licenses.set(code, lic)`: replace any record under `code`. -/
def dbSet (db : DB) (code : String) (lic : ServerLicense) : DB :=
  (db.filter (fun p => p.1 != code)) ++ [(code, lic)]

/-- Result shape of `checkLicenseStatus`. -/
structure SStatus where
  valid : Bool
  reason : Option String
  questionsRemaining : Option Int
deriving DecidableEq, Repr

/-- `checkLicenseStatus(code)` from `database.js`: not found; then
non-`ACTIVE` status; then expiry (`expires_at` truthy and in the past);
then question budget; otherwise valid with the remaining count. -/
def checkLicenseStatus (db : DB) (code : String) (now : Int) : SStatus :=
  match dbGet db code with
  | none => ⟨false, some "License not found", none⟩
  | some lic =>
    let remaining := lic.questions_total - lic.questions_used
    let qCheck : SStatus :=
      if remaining ≤ 0 then ⟨false, some "No questions remaining", some 0⟩
      else ⟨true, none, some remaining⟩
    if lic.status ≠ "ACTIVE" then
      ⟨false, some ("License status: " ++ lic.status), none⟩
    else
      match lic.expires_at with
      | some e => if e < now then ⟨false, some "License expired", none⟩ else qCheck
      | none => qCheck

/-- `activateLicense(code)` from `database.js`: `null` when the code is
unknown; otherwise stamp `activated_at` and store the record back. -/
def activateLicense (db : DB) (code : String) (now : Int) :
    Option ServerLicense × DB :=
  match dbGet db code with
  | none => (none, db)
  | some lic =>
    let lic2 := { lic with activated_at := some now }
    (some lic2, dbSet db code lic2)

/-- `incrementQuestionUsage(code, ...)`: throws on an unknown code
(modelled by `Except.error`), otherwise bumps `questions_used`, stamps
`last_used_at` and stores the record back. -/
def incrementQuestionUsage (db : DB) (code : String) (now : Int) :
    Except String ServerLicense × DB :=
  match dbGet db code with
  | none => (.error "License not found", db)
  | some lic =>
    let lic2 := { lic with questions_used := lic.questions_used + 1,
                           last_used_at := some now }
    (.ok lic2, dbSet db code lic2)

/-- `createLicense(code, type, questionsTotal)`: unconditionally builds a
fresh `ACTIVE` record with a 30-day expiry window and stores it under
`code` (no existence check, no tier check). -/
def createLicense (db : DB) (code ty : String) (questionsTotal : Int)
    (now : Int) : ServerLicense × DB :=
  let newLic : ServerLicense :=
    { code := code, type := ty,
      questions_total := questionsTotal, questions_used := 0,
      status := "ACTIVE", created_at := now,
      activated_at := none, last_used_at := none,
      expires_at := some (now + 30 * 24 * 60 * 60 * 1000) }
  (newLic, dbSet db code newLic)

/-- After `dbSet`, looking the code up yields exactly the stored record. -/
theorem dbGet_dbSet (db : DB) (c : String) (l : ServerLicense) :
    dbGet (dbSet db c l) c = some l := by
  induction db with
  | nil => simp [dbGet, dbSet, List.find?]
  | cons p rest ih =>
    by_cases h : p.1 = c
    · simp [dbGet, dbSet, h]
    · simp [dbGet, dbSet, List.find?, h]

end Server

namespace Client

theorem sortChars_perm (l : List Char) : (sortChars l).Perm l :=
  List.perm_insertionSort _ l

theorem sortChars_sorted (l : List Char) : List.Sorted (· ≤ ·) (sortChars l) :=
  List.sorted_insertionSort _ l

/-- Two character lists have the same JS-sort image exactly when they are
permutations of one another. -/
theorem sortChars_eq_iff {l₁ l₂ : List Char} :
    sortChars l₁ = sortChars l₂ ↔ l₁.Perm l₂ := by
  constructor
  · intro h
    exact (sortChars_perm l₁).symm.trans (by rw [h]; exact sortChars_perm l₂)
  · intro h
    exact List.eq_of_perm_of_sorted
      ((sortChars_perm l₁).trans (h.trans (sortChars_perm l₂).symm))
      (sortChars_sorted l₁) (sortChars_sorted l₂)

/-- The tier-resolution chain of `validateCodePattern` (`cfg?` in the source),
split out so the validator can be analysed after normalisation. -/
def tierFor (p : Char) : Option TierCfg :=
  if p = 'B' then some LICENSE_CONFIG_BASIC
  else if p = 'P' then some LICENSE_CONFIG_PREMIUM
  else none

/-- The tail of `validateCodePattern` applied to an already-normalised code
split into its first character and body. -/
def validateClean (p : Char) (b : List Char) : Option CodePack :=
  if (p :: b).length = 8 then
    match tierFor p with
    | none => none
    | some cfg =>
      if b.length = 7 then
        if sortChars b = sortChars cfg.chars then
          some { type := if p = 'B' then "BASIC" else "PREMIUM",
                 code := p :: b, pfx := cfg.pfx, chars := cfg.chars,
                 maxQuestions := cfg.maxQuestions, maxDays := cfg.maxDays,
                 price := cfg.price, name := cfg.name }
        else none
      else none
  else none

/-- `validateCodePattern` factors through normalisation. -/
theorem validateCodePattern_eq (s : List Char) :
    validateCodePattern s =
      match cleanCode s with
      | [] => none
      | p :: b => validateClean p b := by
  cases h : cleanCode s with
  | nil => simp [validateCodePattern, h]
  | cons p b => simp [validateCodePattern, validateClean, tierFor, h]

/-- The verdict and resolved tier of `validateClean` depend on the body only
through its multiset of characters. -/
theorem validateClean_perm (p : Char) {b₁ b₂ : List Char} (hperm : b₁.Perm b₂) :
    Option.map (fun pk => (pk.type, pk.maxQuestions, pk.maxDays)) (validateClean p b₁)
      = Option.map (fun pk => (pk.type, pk.maxQuestions, pk.maxDays)) (validateClean p b₂) := by
  have hlen : b₁.length = b₂.length := hperm.length_eq
  have hs : sortChars b₁ = sortChars b₂ := sortChars_eq_iff.mpr hperm
  unfold validateClean
  rw [List.length_cons, List.length_cons, hlen, hs]
  cases htier : tierFor p with
  | none => simp
  | some cfg => split_ifs <;> simp

/-- `validateClean` accepts exactly the anagrams of the resolved tier's
alphabet. -/
theorem validateClean_isSome_iff {p : Char} {cfg : TierCfg} (b : List Char)
    (htier : tierFor p = some cfg) (hchars : cfg.chars.length = 7) :
    (validateClean p b).isSome ↔ b.Perm cfg.chars := by
  unfold validateClean
  rw [htier, List.length_cons]
  by_cases h7 : b.length = 7
  · have h8 : b.length + 1 = 8 := by omega
    simp only [h8, if_pos rfl, h7, if_true, sortChars_eq_iff]
    by_cases hp : b.Perm cfg.chars <;> simp [hp]
  · have h8 : ¬ (b.length + 1 = 8) := by omega
    simp only [h8, if_false]
    simp only [Option.isSome_none, Bool.false_eq_true, false_iff]
    intro hp
    exact h7 (by rw [hp.length_eq, hchars])

/-- A successful validation resolves to one of the two configured tiers and
carries that tier's budgets. -/
theorem validate_budgets {s : List Char} {pack : CodePack}
    (h : validateCodePattern s = some pack) :
    (pack.type = "BASIC" ∧ pack.maxQuestions = 10 ∧ pack.maxDays = 30) ∨
    (pack.type = "PREMIUM" ∧ pack.maxQuestions = 100 ∧ pack.maxDays = 365) := by
  rw [validateCodePattern_eq] at h
  cases hc : cleanCode s with
  | nil => rw [hc] at h; simp at h
  | cons p b =>
    rw [hc] at h
    unfold validateClean tierFor at h
    by_cases hB : p = 'B'
    · subst hB
      simp only [if_pos rfl] at h
      split_ifs at h with h1 h2
      split at h
      · exact Option.noConfusion h
      · rename_i cfg heq
        rw [Option.some.injEq] at heq
        subst heq
        split_ifs at h with h3
        injection h with h'
        subst h'
        left
        exact ⟨rfl, rfl, rfl⟩
    · by_cases hP : p = 'P'
      · subst hP
        simp only [hB, if_false, if_pos rfl] at h
        split_ifs at h with h1 h2
        split at h
        · exact Option.noConfusion h
        · rename_i cfg heq
          rw [Option.some.injEq] at heq
          subst heq
          split_ifs at h with h3
          injection h with h'
          subst h'
          right
          refine ⟨?_, rfl, rfl⟩
          simp [hB]
      · simp [hB, hP] at h

end Client

/-! ### Concrete fixtures used by witnesses and counterexamples -/

/-- The BASIC license produced by activating `B1974IUL` at time 0. -/
def licB0 : Client.License :=
  { code := "B1974IUL".toList, type := "BASIC", maxQuestions := 10, maxDays := 30,
    activationDate := 0, questionsUsed := 0 }

/-- The first record planted by `seed()` in `database.js`, with its ISO
timestamps rendered as epoch milliseconds (created at epoch 0, expiring 30
days later). -/
def seedLic1 : Server.ServerLicense :=
  { code := "B1IUL0JVM1I9", type := "BASIC", questions_total := 50,
    questions_used := 0, status := "ACTIVE", created_at := 0,
    activated_at := none, last_used_at := none,
    expires_at := some (30 * 24 * 60 * 60 * 1000) }

/-- A server record that is simultaneously exhausted on questions
(`questions_used = questions_total = 10`) and expired (`expires_at = 100`,
in the past at `now = 200`). -/
def exhaustedExpiredLic : Server.ServerLicense :=
  { code := "B1IUL0JVM1I9", type := "BASIC", questions_total := 10,
    questions_used := 10, status := "ACTIVE", created_at := 0,
    activated_at := some 0, last_used_at := none, expires_at := some 100 }

/-! ### Claim C1 -/

/-- C1 counterexample: the claim quantifies over every License record of the
Status Evaluator and names `checkLicenseStatus` among its sources, but the
server evaluator checks expiry before the question budget: a record with
`questions_used >= questions_total` that is also past `expires_at` reports
the expiry reason, not the question-budget reason. -/
theorem c1_counterexample :
    exhaustedExpiredLic.questions_used ≥ exhaustedExpiredLic.questions_total ∧
    Server.checkLicenseStatus [("B1IUL0JVM1I9", exhaustedExpiredLic)]
        "B1IUL0JVM1I9" 200
      = ⟨false, some "License expired", none⟩ := by
  decide

/-- C1 (amended): the client Status Evaluator `checkStatus` checks
question-budget exhaustion strictly before day-expiry — every stored License
with `questionsUsed >= maxQuestions` yields `valid:false` with reason
`questions_exceeded` regardless of the day budget, so a simultaneously
exhausted-and-expired client license never reports `expired`.  (The server
variant's `checkLicenseStatus` checks expiry first; see the counterexample.) -/
theorem c1_client_questions_before_expiry (license : Client.License) (now : Int)
    (h : license.questionsUsed ≥ license.maxQuestions) :
    Client.checkStatus (.stored license) now = .invalid "questions_exceeded" := by
  simp [Client.checkStatus, Client.getLicense, h]

/-- C1 witness: a client license with the question budget exhausted and the
day budget simultaneously expired reports `questions_exceeded`. -/
theorem c1_witness :
    Client.checkStatus (.stored { licB0 with questionsUsed := 10 })
        (40 * 86400000)
      = .invalid "questions_exceeded" :=
  c1_client_questions_before_expiry { licB0 with questionsUsed := 10 }
    (40 * 86400000) (by decide)

/-! ### Claim C2 -/

/-- C2 counterexample: starting from a freshly activated BASIC license
(`maxQuestions = 10`, full day budget), after ten full click cycles — the
tenth `consume()` included — the immediately following pre-check does NOT
allow the action (the tenth consume already armed `licenseJustExpired`, so
the click is denied), contradicting the claimed placement of the grace
window. -/
theorem c2_counterexample :
    (Client.clickStep 0 (Client.clickN 10 0 ⟨.stored licB0, false⟩)).1
      ≠ Client.Decision.allow := by
  decide

/-- C2 (amended): the 10th `consume()` itself arms the `licenseJustExpired`
flag, so the immediately following pre-check denies with
`questions_exceeded` and clears the flag.  The one-action grace window
exists only when an invalid status is observed with the flag unarmed (for
instance after the flag is lost to a restart): such a state lets exactly one
more action through — pre-check allows, the consume arms the flag — and the
pre-check after that denies. -/
theorem c2_deferred_block :
    Client.activateLicense "B1974IUL".toList 0 ⟨.absent, false⟩
      = (.success licB0 "Licență Basic activată!", ⟨.stored licB0, false⟩) ∧
    Client.clickN 10 0 ⟨.stored licB0, false⟩
      = ⟨.stored { licB0 with questionsUsed := 10 }, true⟩ ∧
    Client.clickStep 0 ⟨.stored { licB0 with questionsUsed := 10 }, true⟩
      = (.deny "questions_exceeded",
         ⟨.stored { licB0 with questionsUsed := 10 }, false⟩) ∧
    Client.clickStep 0 ⟨.stored { licB0 with questionsUsed := 10 }, false⟩
      = (.allow, ⟨.stored { licB0 with questionsUsed := 11 }, true⟩) ∧
    Client.clickStep 0 ⟨.stored { licB0 with questionsUsed := 11 }, true⟩
      = (.deny "questions_exceeded",
         ⟨.stored { licB0 with questionsUsed := 11 }, false⟩) := by
  decide

/-! ### Claim C3 -/

/-- C3: the client Code Validator's verdict is invariant under permutations
of the candidate's body characters — a prefix resolving to a tier is
accepted exactly on the anagrams of that tier's reference alphabet — and the
full result is invariant under case changes and whitespace
insertion/removal, i.e. under anything that leaves the normalised form
unchanged. -/
theorem c3_validator_invariance (s t : List Char) :
    (Client.cleanCode s = Client.cleanCode t →
      Client.validateCodePattern s = Client.validateCodePattern t) ∧
    (∀ p b₁ b₂, Client.cleanCode s = p :: b₁ → Client.cleanCode t = p :: b₂ →
      b₁.Perm b₂ →
      Option.map (fun pk => (pk.type, pk.maxQuestions, pk.maxDays))
          (Client.validateCodePattern s)
        = Option.map (fun pk => (pk.type, pk.maxQuestions, pk.maxDays))
          (Client.validateCodePattern t)) ∧
    (∀ b, Client.cleanCode s = 'B' :: b →
      ((Client.validateCodePattern s).isSome
        ↔ b.Perm Client.LICENSE_CONFIG_BASIC.chars)) ∧
    (∀ b, Client.cleanCode s = 'P' :: b →
      ((Client.validateCodePattern s).isSome
        ↔ b.Perm Client.LICENSE_CONFIG_PREMIUM.chars)) := by
  refine ⟨?_, ?_, ?_, ?_⟩
  · intro h
    rw [Client.validateCodePattern_eq, Client.validateCodePattern_eq, h]
  · intro p b₁ b₂ hs ht hperm
    rw [Client.validateCodePattern_eq, Client.validateCodePattern_eq, hs, ht]
    exact Client.validateClean_perm p hperm
  · intro b hs
    rw [Client.validateCodePattern_eq, hs]
    exact Client.validateClean_isSome_iff b rfl rfl
  · intro b hs
    rw [Client.validateCodePattern_eq, hs]
    exact Client.validateClean_isSome_iff b rfl rfl

/-- C3 witness: lower case and interior whitespace do not change the result,
and an anagram of the body is accepted with the same tier and budgets. -/
theorem c3_witness :
    Client.validateCodePattern "b 1974iul".toList
      = Client.validateCodePattern "B1974IUL".toList ∧
    Option.map (fun pk => (pk.type, pk.maxQuestions, pk.maxDays))
        (Client.validateCodePattern "B1974IUL".toList)
      = Option.map (fun pk => (pk.type, pk.maxQuestions, pk.maxDays))
        (Client.validateCodePattern "B4791LUI".toList) ∧
    ((Client.validateCodePattern "B1974IUL".toList).isSome
      ↔ ("1974IUL".toList).Perm Client.LICENSE_CONFIG_BASIC.chars) := by
  refine ⟨?_, ?_, ?_⟩
  · exact (c3_validator_invariance "b 1974iul".toList "B1974IUL".toList).1
      (by decide)
  · exact (c3_validator_invariance "B1974IUL".toList "B4791LUI".toList).2.1
      'B' "1974IUL".toList "4791LUI".toList (by decide) (by decide) (by decide)
  · exact (c3_validator_invariance "B1974IUL".toList "B1974IUL".toList).2.2.1
      "1974IUL".toList (by decide)

/-! ### Claim C4 -/

/-- C4: for every code accepted by the validator, `activateLicense` stores a
record with `questionsUsed = 0`, `activationDate = now` and the resolved
tier's budgets, and evaluating it at the same `now` yields `valid:true` with
`questionsRemaining = maxQuestions` and `daysRemaining = maxDays`. -/
theorem c4_activate_then_valid (code : List Char) (now : Int)
    (st : Client.ClientState) (pack : Client.CodePack)
    (h : Client.validateCodePattern code = some pack) :
    Client.activateLicense code now st =
      (.success
          { code := pack.code, type := pack.type,
            maxQuestions := pack.maxQuestions, maxDays := pack.maxDays,
            activationDate := now, questionsUsed := 0 }
          ("Licență " ++ pack.name ++ " activată!"),
       { store := .stored
            { code := pack.code, type := pack.type,
              maxQuestions := pack.maxQuestions, maxDays := pack.maxDays,
              activationDate := now, questionsUsed := 0 },
         licenseJustExpired := false }) ∧
    Client.checkStatus (Client.activateLicense code now st).2.store now
      = .valid pack.maxQuestions pack.maxDays := by
  have heq : Client.activateLicense code now st =
      (.success
          { code := pack.code, type := pack.type,
            maxQuestions := pack.maxQuestions, maxDays := pack.maxDays,
            activationDate := now, questionsUsed := 0 }
          ("Licență " ++ pack.name ++ " activată!"),
       { store := .stored
            { code := pack.code, type := pack.type,
              maxQuestions := pack.maxQuestions, maxDays := pack.maxDays,
              activationDate := now, questionsUsed := 0 },
         licenseJustExpired := false }) := by
    simp [Client.activateLicense, h]
  refine ⟨heq, ?_⟩
  rw [heq]
  rcases Client.validate_budgets h with ⟨-, hq, hd⟩ | ⟨-, hq, hd⟩ <;>
    norm_num [Client.checkStatus, Client.getLicense, hq, hd, sub_self,
      Int.zero_fdiv]

/-- C4 witness: activating `B1974IUL` at time 5 stores a fresh record and an
immediate status check reports the full BASIC budgets. -/
theorem c4_witness :
    Client.checkStatus
        (Client.activateLicense "B1974IUL".toList 5 ⟨.absent, true⟩).2.store 5
      = .valid 10 30 :=
  (c4_activate_then_valid "B1974IUL".toList 5 ⟨.absent, true⟩
    { type := "BASIC", code := "B1974IUL".toList, pfx := 'B',
      chars := ['1', '9', '7', '4', 'I', 'U', 'L'],
      maxQuestions := 10, maxDays := 30, price := 20, name := "Basic" }
    (by decide)).2

/-! ### Claim C5 -/

/-- C5: for a stored license not exhausted on questions, the evaluator
computes `daysRemaining = max 0 (maxDays - floor((now - activatedAt)/day))`
and reports `expired` exactly when that value is `<= 0`; concretely, a BASIC
license activated at time 0 still reports `valid` with `daysRemaining = 1`
after 29 elapsed days and reports `expired` after 30 elapsed days. -/
theorem c5_day_budget :
    (∀ (license : Client.License) (now : Int),
      license.questionsUsed < license.maxQuestions →
      (max 0 ((license.maxDays : Int)
            - Int.fdiv (now - license.activationDate) 86400000) ≤ 0 →
        Client.checkStatus (.stored license) now = .invalid "expired") ∧
      (0 < max 0 ((license.maxDays : Int)
            - Int.fdiv (now - license.activationDate) 86400000) →
        Client.checkStatus (.stored license) now
          = .valid (license.maxQuestions - license.questionsUsed)
              (max 0 ((license.maxDays : Int)
                - Int.fdiv (now - license.activationDate) 86400000)))) ∧
    Client.checkStatus (.stored licB0) (29 * 86400000) = .valid 10 1 ∧
    Client.checkStatus (.stored licB0) (30 * 86400000) = .invalid "expired" := by
  refine ⟨?_, by decide, by decide⟩
  intro license now h
  have h' : ¬ license.questionsUsed ≥ license.maxQuestions := not_le.mpr h
  constructor
  · intro hdr
    simp [Client.checkStatus, Client.getLicense, h', hdr]
  · intro hdr
    simp [Client.checkStatus, Client.getLicense, h', not_le.mpr hdr]

/-- C5 witness: a license with one question used out of ten, checked 30 days
after activation, is expired; checked 29 days after activation it is valid
with 9 questions and 1 day remaining. -/
theorem c5_witness :
    Client.checkStatus (.stored { licB0 with questionsUsed := 1 })
        (30 * 86400000) = .invalid "expired" ∧
    Client.checkStatus (.stored { licB0 with questionsUsed := 1 })
        (29 * 86400000) = .valid 9 1 := by
  constructor
  · exact (c5_day_budget.1 { licB0 with questionsUsed := 1 } (30 * 86400000)
      (by decide)).1 (by decide)
  · exact (c5_day_budget.1 { licB0 with questionsUsed := 1 } (29 * 86400000)
      (by decide)).2 (by decide)

/-! ### Claim C6 -/

/-- C6 counterexample: in the server variant the budgets do not come from
the tier definition of the code's prefix — `createLicense` stores whatever
`questionsTotal` the administrator passes (here 500 for a PREMIUM code,
where the tier table says 100) and always a 30-day window (the PREMIUM tier
says 365 days); moreover a later `createLicense` for the same code replaces
the stored record, changing its budgets. -/
theorem c6_counterexample :
    (Server.createLicense [] "P9JVM1IUL0V1" "PREMIUM" 500 0).1.type
      = "PREMIUM" ∧
    (Server.createLicense [] "P9JVM1IUL0V1" "PREMIUM" 500 0).1.questions_total
      = 500 ∧
    ¬ (Server.createLicense [] "P9JVM1IUL0V1" "PREMIUM" 500 0).1.questions_total
      = 100 ∧
    (Server.createLicense [] "P9JVM1IUL0V1" "PREMIUM" 500 0).1.expires_at
      = some (30 * 24 * 60 * 60 * 1000) ∧
    Server.dbGet (Server.createLicense
        (Server.createLicense [] "P9JVM1IUL0V1" "PREMIUM" 500 0).2
        "P9JVM1IUL0V1" "PREMIUM" 7 0).2 "P9JVM1IUL0V1"
      ≠ some (Server.createLicense [] "P9JVM1IUL0V1" "PREMIUM" 500 0).1 := by
  decide

/-- C6 (amended): in the client variant the budgets are fixed at activation
from the tier definition of the code's prefix (BASIC: 10 questions, 30 days;
PREMIUM: 100 questions, 365 days) and are not changed by question
consumption or by the administrative question restore; in the server variant
the stored budgets (`questions_total`, `expires_at`) are whatever record
creation wrote and are left unchanged by `activateLicense` and
`incrementQuestionUsage` (each merely stamps `activated_at`, respectively
`questions_used`/`last_used_at`). -/
theorem c6_budget_immutability :
    (∀ (code : List Char) (pack : Client.CodePack),
      Client.validateCodePattern code = some pack →
      ((pack.type = "BASIC" ∧ pack.maxQuestions = 10 ∧ pack.maxDays = 30) ∨
       (pack.type = "PREMIUM" ∧ pack.maxQuestions = 100 ∧ pack.maxDays = 365))) ∧
    (∀ license : Client.License,
      Client.incrementQuestions (.stored license)
        = .stored { license with questionsUsed := license.questionsUsed + 1 }) ∧
    (∀ (n : Nat) (license : Client.License),
      Client.addQuestions n (.stored license)
        = .stored { license with questionsUsed := license.questionsUsed - n }) ∧
    (∀ (db : Server.DB) (code : String) (now : Int) (lic : Server.ServerLicense),
      Server.dbGet db code = some lic →
      (Server.activateLicense db code now).1
        = some { lic with activated_at := some now }) ∧
    (∀ (db : Server.DB) (code : String) (now : Int) (lic : Server.ServerLicense),
      Server.dbGet db code = some lic →
      (Server.incrementQuestionUsage db code now).1
        = .ok { lic with questions_used := lic.questions_used + 1,
                         last_used_at := some now }) := by
  refine ⟨fun code pack h => Client.validate_budgets h,
          fun license => rfl, fun n license => rfl, ?_, ?_⟩
  · intro db code now lic h
    simp [Server.activateLicense, h]
  · intro db code now lic h
    simp [Server.incrementQuestionUsage, h]

/-- C6 witness: activating the seeded record only stamps `activated_at`,
leaving `questions_total` and `expires_at` untouched. -/
theorem c6_witness :
    (Server.activateLicense [("B1IUL0JVM1I9", seedLic1)] "B1IUL0JVM1I9" 77).1
      = some { seedLic1 with activated_at := some 77 } :=
  c6_budget_immutability.2.2.2.1 [("B1IUL0JVM1I9", seedLic1)] "B1IUL0JVM1I9"
    77 seedLic1 (by decide)

/-! ### Claim C7 -/

/-- C7: for every candidate code the validator rejects (wrong length,
unknown tier character, wrong body multiset), `activateLicense` returns the
rejection message and the whole client state — the stored record and the
`licenseJustExpired` flag — is returned unchanged. -/
theorem c7_invalid_code_no_mutation (code : List Char) (now : Int)
    (st : Client.ClientState) (h : Client.validateCodePattern code = none) :
    Client.activateLicense code now st = (.failure "Cod invalid", st) := by
  simp [Client.activateLicense, h]

/-- C7 witness: activating `B1974IUX` (the `X` is outside the BASIC
alphabet) fails and leaves the stored license and the armed flag exactly as
they were. -/
theorem c7_witness :
    Client.activateLicense "B1974IUX".toList 3 ⟨.stored licB0, true⟩
      = (.failure "Cod invalid", ⟨.stored licB0, true⟩) :=
  c7_invalid_code_no_mutation "B1974IUX".toList 3 ⟨.stored licB0, true⟩
    (by decide)

/-! ### Claim C8 -/

/-- C8: an unreadable or corrupt store never throws: `getLicense` turns the
parse failure into an absent record, and the status check reports
`no_license`, exactly as for an empty slot (in the server variant a store
read failure degrades to an empty record list, on which the evaluator
reports the record as not found). -/
theorem c8_corrupt_store_no_license (now : Int) :
    Client.getLicense .corrupt = none ∧
    Client.checkStatus .corrupt now = .invalid "no_license" ∧
    Client.checkStatus .absent now = .invalid "no_license" ∧
    Server.checkLicenseStatus [] "B1IUL0JVM1I9" now
      = ⟨false, some "License not found", none⟩ :=
  ⟨rfl, rfl, rfl, rfl⟩

/-! ### Claim C9 -/

/-- C9 counterexample: `createLicense` does not fail when the code already
exists or the type is unrecognised — called with the already-present seeded
code and the unknown tier `GOLD`, it still creates an `ACTIVE` record and
overwrites the existing one. -/
theorem c9_counterexample :
    Server.dbGet [("B1IUL0JVM1I9", seedLic1)] "B1IUL0JVM1I9" = some seedLic1 ∧
    (Server.createLicense [("B1IUL0JVM1I9", seedLic1)]
        "B1IUL0JVM1I9" "GOLD" 7 0).1.status = "ACTIVE" ∧
    Server.dbGet (Server.createLicense [("B1IUL0JVM1I9", seedLic1)]
        "B1IUL0JVM1I9" "GOLD" 7 0).2 "B1IUL0JVM1I9"
      = some (Server.createLicense [("B1IUL0JVM1I9", seedLic1)]
          "B1IUL0JVM1I9" "GOLD" 7 0).1 ∧
    Server.dbGet (Server.createLicense [("B1IUL0JVM1I9", seedLic1)]
        "B1IUL0JVM1I9" "GOLD" 7 0).2 "B1IUL0JVM1I9"
      ≠ some seedLic1 := by
  decide

/-- C9 (amended): `createLicense(code, type, questionsTotal)` never fails:
for every store, code, type and budget it unconditionally builds a fresh
`ACTIVE` record (`questions_used = 0`, 30-day expiry window) and stores it
under `code`, overwriting any existing record with that code; the `type`
argument is stored without validation. -/
theorem c9_create_always_succeeds (db : Server.DB) (code ty : String)
    (questionsTotal now : Int) :
    (Server.createLicense db code ty questionsTotal now).1
      = { code := code, type := ty, questions_total := questionsTotal,
          questions_used := 0, status := "ACTIVE", created_at := now,
          activated_at := none, last_used_at := none,
          expires_at := some (now + 30 * 24 * 60 * 60 * 1000) } ∧
    Server.dbGet (Server.createLicense db code ty questionsTotal now).2 code
      = some (Server.createLicense db code ty questionsTotal now).1 :=
  ⟨rfl, Server.dbGet_dbSet db code _⟩

/-! ### Claim C10 -/

/-- C10: calling the client consume operation with no stored license record
returns without effect: the store is left exactly as it was and no record is
created. -/
theorem c10_increment_no_license (store : Client.RawStore)
    (h : Client.getLicense store = none) :
    Client.incrementQuestions store = store := by
  simp [Client.incrementQuestions, h]

/-- C10 witness: incrementing on an empty store is a no-op. -/
theorem c10_witness : Client.incrementQuestions .absent = .absent :=
  c10_increment_no_license .absent rfl

end Triboi
